import Mathlib

/-!
Verification of the service-mesh-extensions render helpers and the
registry data model.

The Go data model lives in `api/v1/registry.proto` (gogoproto, with
`stdtime` timestamps) and the helper under scrutiny is
`pkg/render/util/params.go`:

```go
func ParamValueToString(value *v1.ParameterValue) string {
    switch t := value.GetType().(type) {
    case *v1.ParameterValue_BooleanValue:
        if t.BooleanValue { return "true" }
        return "false"
    case *v1.ParameterValue_DateValue:
        return t.DateValue.String()
    case *v1.ParameterValue_FloatValue:
        return strconv.FormatFloat(t.FloatValue, 'f', -1, 64)
    case *v1.ParameterValue_IntValue:
        return strconv.Itoa(int(t.IntValue))
    case *v1.ParameterValue_SecretValue:
        // TODO not yet supported
        return ""
    case *v1.ParameterValue_StringValue:
        return t.StringValue
    }
    return ""
}
```

Pointers of the generated Go code are modelled as `Option`, the oneof
`ParameterValue.type` as an `Option` of an inductive, and a Go runtime
panic (nil pointer dereference) as the result `none` of an
`Option String`-valued function.
-/

namespace SMH

/-- Mirror of `core.solo.io.ResourceRef` (solo-kit `ref.proto`): a
name/namespace pair identifying a cluster resource. -/
structure ResourceRef where
  name : String
  resNamespace : String
  deriving DecidableEq

/-- Mirror of message `SecretRef` of `registry.proto`: a reference to a
Kubernetes secret plus the key inside its `data` field. The message-typed
`ref` field is a pointer in the generated Go, hence `Option`. -/
structure SecretRef where
  ref : Option ResourceRef
  key : String
  deriving DecidableEq

/-- Mirror of message `SecretValue` of `registry.proto`: oneof over a
cluster secret ref, a local file path, or inline plaintext. The
message-typed `secret_ref` payload is a Go pointer, hence `Option`. -/
inductive SecretValue where
  | secretRef (r : Option SecretRef)
  | filePath (p : String)
  | plainText (s : String)
  deriving DecidableEq

/-- Mirror of `google.protobuf.Timestamp` as carried by the generated Go
code: with `(gogoproto.stdtime) = true` the field is a `*time.Time`, whose
in-memory invariant keeps the nanosecond part in `[0, 10^9)`; we model the
instant as whole seconds since the Unix epoch plus that nanosecond part. -/
structure Timestamp where
  seconds : Int
  nanos : Fin 1000000000
  deriving DecidableEq

/-- Mirror of the oneof `type` of message `ParameterValue` of
`registry.proto`. `int_value` is an `int64` (modelled by its integer
value), `float_value` a `double` (modelled by its IEEE-754 bit pattern),
and the message-typed payloads (`date_value`, `secret_value`) are Go
pointers, hence `Option`. -/
inductive ParameterValueType where
  | stringValue (s : String)
  | intValue (i : Int)
  | floatValue (bits : Nat)
  | booleanValue (b : Bool)
  | dateValue (t : Option Timestamp)
  | secretValue (s : Option SecretValue)
  deriving DecidableEq

/-- Mirror of message `ParameterValue`: a single optional oneof field
(`nil` when no variant is set). -/
structure ParameterValue where
  type : Option ParameterValueType
  deriving DecidableEq

/-- Mirror of the generated `(*ParameterValue).GetType`, which checks the
receiver for nil before reading the oneof field. -/
def getType (value : Option ParameterValue) : Option ParameterValueType :=
  match value with
  | none => none
  | some m => m.type

/-- Left-pad a decimal string with zeros to the given width, as Go's
time formatting does for its numeric fields. -/
def padZeros (width : Nat) (s : String) : String :=
  if width ≤ s.length then s else String.mk (List.replicate (width - s.length) '0') ++ s

/-- Render a field of Go's time layout that is at least two digits wide. -/
def pad2 (n : Nat) : String := padZeros 2 (Nat.repr n)

/-- Render the year of Go's time layout: at least four digits, with a
leading minus sign for negative years. -/
def pad4Int (y : Int) : String :=
  if y < 0 then "-" ++ padZeros 4 (Nat.repr y.natAbs) else padZeros 4 (Nat.repr y.natAbs)

/-- Drop trailing `'0'` characters, as Go's `.999999999` fractional
layout does after printing the nanoseconds. -/
def trimRightZeros (s : String) : String :=
  String.mk (s.data.reverse.dropWhile (fun c => c = '0')).reverse

/-- Proleptic-Gregorian civil date from a count of days since the Unix
epoch (1970-01-01): the standard era/day-of-era computation also used by
Go's `time` package internals, returning (year, month, day). -/
def civilFromDays (days : Int) : Int × Nat × Nat :=
  let z := days + 719468
  let era := Int.fdiv z 146097
  let doe := (z - era * 146097).toNat
  let yoe := (doe - doe / 1460 + doe / 36524 - doe / 146096) / 365
  let y := (yoe : Int) + era * 400
  let doy := doe - (365 * yoe + yoe / 4 - yoe / 100)
  let mp := (5 * doy + 2) / 153
  let d := doy - (153 * mp + 2) / 5 + 1
  let m := if mp < 10 then mp + 3 else mp - 9
  (if m ≤ 2 then y + 1 else y, m, d)

/-- Mirror of Go's `time.Time.String()` for a UTC instant (the layout
`2006-01-02 15:04:05.999999999 -0700 MST`): zero-padded date and clock
fields, a fractional second with trailing zeros trimmed and omitted
entirely at zero nanoseconds, and the fixed UTC zone suffix. Proto
timestamps reach the helper through `TimestampFromProto`, which always
produces UTC `time.Time` values, and the proto `Timestamp` range keeps
the arithmetic inside `time`'s representable years. -/
def goTimeString (t : Timestamp) : String :=
  let days := Int.fdiv t.seconds 86400
  let secs := (Int.fmod t.seconds 86400).toNat
  let ymd := civilFromDays days
  let frac :=
    if (t.nanos : Nat) = 0 then ""
    else "." ++ trimRightZeros (padZeros 9 (Nat.repr (t.nanos : Nat)))
  pad4Int ymd.1 ++ "-" ++ pad2 ymd.2.1 ++ "-" ++ pad2 ymd.2.2 ++ " " ++
    pad2 (secs / 3600) ++ ":" ++ pad2 (secs % 3600 / 60) ++ ":" ++ pad2 (secs % 60) ++
    frac ++ " +0000 UTC"

/-- Mirror of `strconv.Itoa(int(i))` on a 64-bit platform, where `int`
is 64 bits wide and the conversion from `int64` is lossless: the signed
canonical base-10 rendering. -/
def itoa (i : Int) : String := Int.repr i

/-- Stand-in for `strconv.FormatFloat(f, 'f', -1, 64)`. The Go call
produces the shortest non-exponential decimal that round-trips to the
IEEE-754 double `f`; that floating-point formatting algorithm is not
modelled here. What the surrounding claims rely on is only that it is a
pure, total function of the double's bit pattern, which this stand-in
keeps faithful. -/
def formatFloat64 (bits : Nat) : String := Nat.repr bits

/-- Mirror of `ParamValueToString` of `pkg/render/util/params.go`. The
cases follow the Go type switch; the result is `none` exactly where the
Go code dereferences a nil `*time.Time` and panics, and `some s` where
the Go code returns the string `s`. -/
def ParamValueToString (value : Option ParameterValue) : Option String :=
  match getType value with
  | some (ParameterValueType.booleanValue b) =>
      if b then some "true" else some "false"
  | some (ParameterValueType.dateValue dv) =>
      match dv with
      | some t => some (goTimeString t)
      | none => none
  | some (ParameterValueType.floatValue bits) => some (formatFloat64 bits)
  | some (ParameterValueType.intValue i) => some (itoa i)
  | some (ParameterValueType.secretValue _) =>
      -- TODO not yet supported (comment carried over from the source)
      some ""
  | some (ParameterValueType.stringValue s) => some s
  | none => some ""

/-- The strings a `SecretValue` carries as its raw source material: the
resource-ref name and namespace and the data key for the cluster-secret
variant, the path for the file variant, and the plaintext itself for the
inline variant. -/
def secretSourceStrings : SecretValue → List String
  | SecretValue.secretRef r =>
      (match r with
       | none => []
       | some sr =>
           (match sr.ref with
            | none => []
            | some rr => [rr.name, rr.resNamespace]) ++ [sr.key])
  | SecretValue.filePath p => [p]
  | SecretValue.plainText s => [s]

/-- C1: for the boolean variant `ParamValueToString` returns `"true"`
when the boolean is true and `"false"` when it is false; for the string
variant it returns the contained string unchanged; and for the date
variant it returns the canonical Go timestamp rendering of the instant
(`goTimeString`, the UTC `time.Time.String()` form), as on the concrete
epoch example. -/
theorem paramValueToString_primitive_serialization :
    (ParamValueToString (some ⟨some (ParameterValueType.booleanValue true)⟩) = some "true") ∧
    (ParamValueToString (some ⟨some (ParameterValueType.booleanValue false)⟩) = some "false") ∧
    (∀ s : String,
      ParamValueToString (some ⟨some (ParameterValueType.stringValue s)⟩) = some s) ∧
    (∀ t : Timestamp,
      ParamValueToString (some ⟨some (ParameterValueType.dateValue (some t))⟩) =
        some (goTimeString t)) ∧
    (ParamValueToString
        (some ⟨some (ParameterValueType.dateValue (some ⟨0, ⟨0, by decide⟩⟩))⟩) =
      some "1970-01-01 00:00:00 +0000 UTC") := by
  refine ⟨rfl, rfl, fun s => rfl, fun t => rfl, ?_⟩
  rfl

/-- C3 counterexample: a secret-typed parameter value whose literal value
under the Secret Resolver would be the plaintext `"hunter2"` (the
plaintext variant resolves to itself) is rendered as `""`, not as that
literal value, so the function does not resolve secrets. -/
theorem paramValueToString_secret_unresolved_cex :
    ParamValueToString
        (some ⟨some (ParameterValueType.secretValue (some (SecretValue.plainText "hunter2")))⟩) =
      some "" ∧ ("" : String) ≠ "hunter2" := by
  exact ⟨rfl, by decide⟩

/-- C3 amended: for every secret-variant parameter value the function
returns the empty string without performing any secret resolution, and no
non-empty raw source string of the secret (reference name, namespace,
data key, file path, or plaintext) ever appears as its output. -/
theorem paramValueToString_secret_empty_never_embeds (sv : SecretValue) :
    ParamValueToString (some ⟨some (ParameterValueType.secretValue (some sv))⟩) = some "" ∧
    ∀ s ∈ secretSourceStrings sv, s ≠ "" →
      ParamValueToString (some ⟨some (ParameterValueType.secretValue (some sv))⟩) ≠ some s := by
  refine ⟨by cases sv <;> rfl, ?_⟩
  intro s _ hne hcontra
  apply hne
  have hempty :
      ParamValueToString (some ⟨some (ParameterValueType.secretValue (some sv))⟩) = some "" := by
    cases sv <;> rfl
  rw [hempty] at hcontra
  exact (Option.some.injEq _ _ ▸ hcontra).symm

/-- C3 witness: the amended statement at the concrete plaintext secret
`"pw"`: the output is empty and is not the plaintext. -/
theorem paramValueToString_secret_empty_never_embeds_witness :
    ParamValueToString
        (some ⟨some (ParameterValueType.secretValue (some (SecretValue.plainText "pw")))⟩) =
      some "" ∧
    ParamValueToString
        (some ⟨some (ParameterValueType.secretValue (some (SecretValue.plainText "pw")))⟩) ≠
      some "pw" := by
  have h := paramValueToString_secret_empty_never_embeds (SecretValue.plainText "pw")
  exact ⟨h.1, h.2 "pw" (by simp [secretSourceStrings]) (by decide)⟩

/-- C4: every secret-variant parameter value (including a nil
`SecretValue` pointer) is rendered as the empty string — the explicit
`TODO not yet supported` fallback of the source — and the call does not
fail. -/
theorem paramValueToString_secret_fallback_empty (sv : Option SecretValue) :
    ParamValueToString (some ⟨some (ParameterValueType.secretValue sv)⟩) = some "" := by
  rfl

/-- C6: `ParamValueToString` is deterministic — the source is a pure
function of its argument (no global state, no clock, no randomness), so
its embedding is a function and equal inputs yield equal outputs. -/
theorem paramValueToString_deterministic (v₁ v₂ : Option ParameterValue) (h : v₁ = v₂) :
    ParamValueToString v₁ = ParamValueToString v₂ :=
  congrArg ParamValueToString h

/-- C6 witness: two syntactically different but equal concrete inputs
render to the same string, and that string is the canonical one. -/
theorem paramValueToString_deterministic_witness :
    ParamValueToString (some ⟨some (ParameterValueType.intValue 7)⟩) =
      ParamValueToString (some ⟨some (ParameterValueType.intValue (3 + 4))⟩) ∧
    ParamValueToString (some ⟨some (ParameterValueType.intValue 7)⟩) = some "7" := by
  exact ⟨paramValueToString_deterministic _ _ (by decide), rfl⟩

/-- C9 counterexample: a date-variant parameter value carrying a nil
`*time.Time` makes the Go code call `String()` through a nil pointer,
which panics — modelled as the result `none` — so not every input leaves
the function total. -/
theorem paramValueToString_nil_date_panics_cex :
    ParamValueToString (some ⟨some (ParameterValueType.dateValue none)⟩) = none := by
  rfl

/-- C9 amended: a nil `ParameterValue` and an unset oneof both return
the empty string rather than failing, and the function is total on every
input except the date variant with a nil timestamp pointer, the one
input on which it panics. -/
theorem paramValueToString_total_except_nil_date :
    (ParamValueToString none = some "") ∧
    (ParamValueToString (some ⟨none⟩) = some "") ∧
    (∀ v : Option ParameterValue,
      v ≠ some ⟨some (ParameterValueType.dateValue none)⟩ →
      (ParamValueToString v).isSome = true) := by
  refine ⟨rfl, rfl, ?_⟩
  intro v hv
  match v with
  | none => rfl
  | some ⟨none⟩ => rfl
  | some ⟨some (ParameterValueType.stringValue s)⟩ => rfl
  | some ⟨some (ParameterValueType.intValue i)⟩ => rfl
  | some ⟨some (ParameterValueType.floatValue bits)⟩ => rfl
  | some ⟨some (ParameterValueType.booleanValue b)⟩ => cases b <;> rfl
  | some ⟨some (ParameterValueType.dateValue (some t))⟩ => rfl
  | some ⟨some (ParameterValueType.dateValue none)⟩ => exact absurd rfl hv
  | some ⟨some (ParameterValueType.secretValue sv)⟩ => rfl

/-- C9 witness: the amended totality applied at a concrete non-date
input, with the disequality hypothesis discharged by computation. -/
theorem paramValueToString_total_except_nil_date_witness :
    (ParamValueToString (some ⟨some (ParameterValueType.stringValue "x")⟩)).isSome = true := by
  exact paramValueToString_total_except_nil_date.2.2
    (some ⟨some (ParameterValueType.stringValue "x")⟩) (by decide)

/-- C10: the output of `ParamValueToString` on a secret-variant value is
independent of everything the secret carries — any two secret payloads
(different refs, file paths, or plaintext contents, or a nil pointer)
yield the same output, namely the empty string — so no secret data flows
into the result. -/
theorem paramValueToString_secret_noninterference (sv₁ sv₂ : Option SecretValue) :
    ParamValueToString (some ⟨some (ParameterValueType.secretValue sv₁)⟩) =
      ParamValueToString (some ⟨some (ParameterValueType.secretValue sv₂)⟩) ∧
    ParamValueToString (some ⟨some (ParameterValueType.secretValue sv₁)⟩) = some "" := by
  exact ⟨rfl, rfl⟩

/-!
The render engine itself (`pkg/render`) is referenced by the repository's
tests but its sources are not part of the visible fragment; the
components below are modelled from the specification (Compatibility
Validator §4.3, Layer Composer §4.4, Step Orchestrator §4.5) over the
schema of `registry.proto`.
-/

/-- Mirror of enum `MeshType` of `registry.proto`. -/
inductive MeshType where
  | istio
  | linkerd
  | awsAppMesh
  deriving DecidableEq

/-- Mirror of message `AllowedVersions` of `registry.proto`: an inclusive
version range whose empty-string bounds mean "unbounded on that side". -/
structure AllowedVersions where
  minVersion : String
  maxVersion : String
  deriving DecidableEq

/-- Mirror of message `MeshRequirement` of `registry.proto`: a mesh type
plus an optional allowed-version range (a nil range allows any version). -/
structure MeshRequirement where
  meshType : MeshType
  versions : Option AllowedVersions
  deriving DecidableEq

/-- Mirror of message `RequirementSet` of `registry.proto`, currently a
single mesh requirement. -/
structure RequirementSet where
  meshRequirement : MeshRequirement
  deriving DecidableEq

/-- Mirror of message `LayerOption` of `registry.proto` (the fields the
claims touch: identifier, display strings, and the helm value overrides
the option contributes). -/
structure LayerOption where
  id : String
  displayName : String
  description : String
  helmValues : String
  deriving DecidableEq

/-- Mirror of message `Layer` of `registry.proto`: an identified
customization axis, togglable iff `optional` is true, with its candidate
options. -/
structure Layer where
  id : String
  displayName : String
  description : String
  optional : Bool
  options : List LayerOption
  deriving DecidableEq

/-- Mirror of message `Flavor` of `registry.proto` (the fields the claims
touch): name, description, ordered customization layers, and requirement
sets with satisfied-if-any semantics. -/
structure Flavor where
  name : String
  description : String
  customizationLayers : List Layer
  requirementSets : List RequirementSet
  deriving DecidableEq

/-- Modelled from the spec: the target runtime descriptor handed to the
Compatibility Validator, `describeRuntime() → (meshType, version)`. -/
structure TargetRuntime where
  meshType : MeshType
  version : String
  deriving DecidableEq

/-- Split a character list on `'.'` separators (structural helper for the
semantic-version parser). -/
def splitDots : List Char → List (List Char)
  | [] => [[]]
  | c :: rest =>
      match splitDots rest with
      | [] => [[c]]
      | g :: gs => if c = '.' then [] :: g :: gs else (c :: g) :: gs

/-- Numeric value of a digit string (most significant digit first). -/
def digitsToNat (cs : List Char) : Nat :=
  cs.foldl (fun acc c => acc * 10 + (c.toNat - '0'.toNat)) 0

/-- One dotted component of a version string: its numeric value when it
is a non-empty run of digits, zero otherwise. -/
def parseComponent (cs : List Char) : Nat :=
  if cs ≠ [] ∧ cs.all (fun c => c.isDigit) then digitsToNat cs else 0

/-- Modelled from the spec: parse a version string such as `"1.3.2"` into
its numeric components for semantic comparison. -/
def parseVersion (s : String) : List Nat :=
  (splitDots s.data).map parseComponent

/-- Componentwise comparison of parsed versions; a missing component
counts as zero, so `"1.2"` and `"1.2.0"` compare equal. -/
def versionCmp : List Nat → List Nat → Ordering
  | [], bs => if bs.all (fun b => b = 0) then Ordering.eq else Ordering.lt
  | a :: as, [] => if a = 0 then versionCmp as [] else Ordering.gt
  | a :: as, b :: bs =>
      if a < b then Ordering.lt
      else if b < a then Ordering.gt
      else versionCmp as bs

/-- Modelled from the spec: semantic (not lexical) version ordering,
`a ≤ b` as versions. -/
def semverLe (a b : String) : Bool :=
  match versionCmp (parseVersion a) (parseVersion b) with
  | Ordering.gt => false
  | _ => true

/-- Plain lexical (character-by-character) comparison of strings, used
only to state that the semantic ordering above is not the lexical one. -/
def lexLtChars : List Char → List Char → Bool
  | [], [] => false
  | [], _ :: _ => true
  | _ :: _, [] => false
  | a :: as, b :: bs =>
      if a < b then true else if b < a then false else lexLtChars as bs

/-- Lexical strict order on strings via their character lists. -/
def lexLt (a b : String) : Bool := lexLtChars a.data b.data

/-- Modelled from the spec: the target's version lies within the allowed
range — inclusive `[minVersion, maxVersion]`, an unset (empty) bound open
on that side, and a nil range allowing every version. -/
def versionInRange (av : Option AllowedVersions) (v : String) : Bool :=
  match av with
  | none => true
  | some b =>
      (b.minVersion == "" || semverLe b.minVersion v) &&
      (b.maxVersion == "" || semverLe v b.maxVersion)

/-- Propositional reading of `versionInRange`, stated the way the spec
words the bound conditions. -/
def versionWithinBounds (av : Option AllowedVersions) (v : String) : Prop :=
  match av with
  | none => True
  | some b =>
      (b.minVersion = "" ∨ semverLe b.minVersion v = true) ∧
      (b.maxVersion = "" ∨ semverLe v b.maxVersion = true)

/-- Modelled from the spec: a `RequirementSet` is satisfied iff its mesh
requirement's type equals the target's type and the target's version is
within the allowed range. -/
def requirementSatisfied (rs : RequirementSet) (t : TargetRuntime) : Bool :=
  (rs.meshRequirement.meshType == t.meshType) &&
    versionInRange rs.meshRequirement.versions t.version

/-- Modelled from the spec: the Compatibility Validator's applicability
decision — a flavor with no requirement sets is universally applicable,
otherwise it is applicable iff some requirement set is satisfied. -/
def flavorApplicable (f : Flavor) (t : TargetRuntime) : Bool :=
  f.requirementSets.isEmpty || f.requirementSets.any (fun rs => requirementSatisfied rs t)

/-- The boolean range check coincides with its propositional reading. -/
theorem versionInRange_iff (av : Option AllowedVersions) (v : String) :
    versionInRange av v = true ↔ versionWithinBounds av v := by
  cases av with
  | none => simp [versionInRange, versionWithinBounds]
  | some b =>
      simp [versionInRange, versionWithinBounds, Bool.and_eq_true, Bool.or_eq_true,
        beq_iff_eq]

/-- C5: a flavor is applicable to a target runtime iff it has no
requirement sets at all (universal applicability) or at least one of its
requirement sets is satisfied, where a set is satisfied exactly when its
mesh type equals the target's and the target's version lies within the
inclusive `[minVersion, maxVersion]` range (an unset bound open on that
side); and the version ordering used is semantic, not lexical, as the
`1.9.0` versus `1.10.0` comparison shows. -/
theorem flavorApplicable_characterization (f : Flavor) (t : TargetRuntime) :
    (flavorApplicable f t = true ↔
      f.requirementSets = [] ∨
        ∃ rs ∈ f.requirementSets,
          rs.meshRequirement.meshType = t.meshType ∧
          versionWithinBounds rs.meshRequirement.versions t.version) ∧
    (f.requirementSets = [] → flavorApplicable f t = true) ∧
    (semverLe "1.9.0" "1.10.0" = true ∧ semverLe "1.10.0" "1.9.0" = false ∧
      lexLt "1.10.0" "1.9.0" = true) := by
  have hmain : flavorApplicable f t = true ↔
      f.requirementSets = [] ∨
        ∃ rs ∈ f.requirementSets,
          rs.meshRequirement.meshType = t.meshType ∧
          versionWithinBounds rs.meshRequirement.versions t.version := by
    simp only [flavorApplicable, Bool.or_eq_true, List.isEmpty_iff, List.any_eq_true,
      requirementSatisfied, Bool.and_eq_true, beq_iff_eq, versionInRange_iff]
  refine ⟨hmain, ?_, rfl, rfl, rfl⟩
  intro hempty
  exact hmain.mpr (Or.inl hempty)

/-- Concrete requirement set of the spec's §8 example:
`MeshRequirement{type=ISTIO, minVersion="1.0.0", maxVersion="1.5.0"}`. -/
def istioReqSet : RequirementSet :=
  { meshRequirement :=
      { meshType := MeshType.istio
        versions := some { minVersion := "1.0.0", maxVersion := "1.5.0" } } }

/-- A flavor carrying exactly the §8 example requirement set. -/
def istioFlavor : Flavor :=
  { name := "istio-vanilla"
    description := "spec section 8 example"
    customizationLayers := []
    requirementSets := [istioReqSet] }

/-- C5 witness: the characterization applied at the spec's §8 example —
the flavor is applicable to `(ISTIO, "1.3.2")`, and not to
`(ISTIO, "1.6.0")` or `(LINKERD, "1.3.2")`. -/
theorem flavorApplicable_characterization_witness :
    flavorApplicable istioFlavor ⟨MeshType.istio, "1.3.2"⟩ = true ∧
    flavorApplicable istioFlavor ⟨MeshType.istio, "1.6.0"⟩ = false ∧
    flavorApplicable istioFlavor ⟨MeshType.linkerd, "1.3.2"⟩ = false := by
  refine ⟨?_, rfl, rfl⟩
  refine (flavorApplicable_characterization istioFlavor ⟨MeshType.istio, "1.3.2"⟩).1.mpr ?_
  refine Or.inr ⟨istioReqSet, ?_, rfl, Or.inr rfl, Or.inr rfl⟩
  simp [istioFlavor]

/-- Mirror of message `GithubRepositoryLocation` of `registry.proto`. -/
structure GithubRepositoryLocation where
  org : String
  repo : String
  gitRef : String
  directory : String
  deriving DecidableEq

/-- Mirror of message `TgzLocation` of `registry.proto`. -/
structure TgzLocation where
  uri : String
  deriving DecidableEq

/-- Mirror of the oneof `step` of message `InstallationSteps.Step` of
`registry.proto`: a single-source install variant, never a nested step
list. -/
inductive StepSource where
  | githubChart (loc : GithubRepositoryLocation)
  | helmArchive (loc : TgzLocation)
  | manifestsArchive (loc : TgzLocation)
  deriving DecidableEq

/-- Mirror of message `InstallationSteps.Step` of `registry.proto`: a
uniquely named stage with one install source. -/
structure Step where
  name : String
  source : StepSource
  deriving DecidableEq

/-- Modelled from the spec: a structured resource object as returned by
the external Templating Engine (kind, namespace, name, labels). -/
structure Resource where
  kind : String
  resNamespace : String
  name : String
  labels : List (String × String)
  deriving DecidableEq

/-- Modelled from the spec: the label key under which the Step
Orchestrator records the step that produced a resource. -/
def stepLabelKey : String := "install-step"

/-- Modelled from the spec: label one rendered resource with the step
that produced it. -/
def labelWithStep (stepName : String) (r : Resource) : Resource :=
  { r with labels := (stepLabelKey, stepName) :: r.labels }

/-- Modelled from the spec: the Step Orchestrator's walk over the
declared steps — each step's install source is handed to the Templating
Engine (the function argument `engine`), every produced resource is
labeled with the step, and the per-step outputs are concatenated in
declaration order. -/
def renderSteps (engine : Step → List Resource) : List Step → List Resource
  | [] => []
  | s :: rest => (engine s).map (labelWithStep s.name) ++ renderSteps engine rest

/-- Modelled from the spec: the full orchestration of one render — all
step outputs in declared order, then the resources contributed by flavor
layer customizations appended as the last batch. -/
def orchestrateSteps (engine : Step → List Resource) (steps : List Step)
    (layerResources : List Resource) : List Resource :=
  renderSteps engine steps ++ layerResources

/-- The recursive step walk equals the order-preserving concatenation of
the per-step labeled outputs. -/
theorem renderSteps_eq_flatten (engine : Step → List Resource) (steps : List Step) :
    renderSteps engine steps =
      (steps.map (fun s => (engine s).map (labelWithStep s.name))).flatten := by
  induction steps with
  | nil => rfl
  | cons s rest ih => simp [renderSteps, ih]

/-- Every resource produced by the step walk originates from a declared
step and is labeled with it. -/
theorem renderSteps_mem (engine : Step → List Resource) (steps : List Step) :
    ∀ r ∈ renderSteps engine steps, ∃ s ∈ steps, ∃ r₀ ∈ engine s,
      r = labelWithStep s.name r₀ ∧ (stepLabelKey, s.name) ∈ r.labels := by
  induction steps with
  | nil => intro r hr; cases hr
  | cons s rest ih =>
      intro r hr
      rcases List.mem_append.mp hr with hhead | htail
      · rcases List.mem_map.mp hhead with ⟨r₀, hr₀, heq⟩
        refine ⟨s, List.mem_cons_self s rest, r₀, hr₀, heq.symm, ?_⟩
        rw [← heq]
        exact List.mem_cons_self _ _
      · rcases ih r htail with ⟨s', hs', r₀, hr₀, heq, hlabel⟩
        exact ⟨s', List.mem_cons_of_mem s hs', r₀, hr₀, heq, hlabel⟩

/-- C7: the final batch of the Step Orchestrator concatenates each step's
rendered resources in the declared array order with no reordering, every
resource carries the label of the step that produced it, and the
layer-customization resources form the final appended batch. -/
theorem orchestrateSteps_order_and_labels (engine : Step → List Resource)
    (steps : List Step) (layerResources : List Resource) :
    orchestrateSteps engine steps layerResources =
      (steps.map (fun s => (engine s).map (labelWithStep s.name))).flatten ++
        layerResources ∧
    (∀ r ∈ renderSteps engine steps, ∃ s ∈ steps, ∃ r₀ ∈ engine s,
      r = labelWithStep s.name r₀ ∧ (stepLabelKey, s.name) ∈ r.labels) := by
  exact ⟨by rw [orchestrateSteps, renderSteps_eq_flatten], renderSteps_mem engine steps⟩

/-- Concrete first step of the spec's §8 end-to-end scenario B. -/
def preInstallStep : Step :=
  { name := "pre-install", source := StepSource.manifestsArchive ⟨"https://example.com/pre.tgz"⟩ }

/-- Concrete second step of the spec's §8 end-to-end scenario B. -/
def coreStep : Step :=
  { name := "core", source := StepSource.helmArchive ⟨"https://example.com/core.tgz"⟩ }

/-- A concrete stand-in Templating Engine producing one config map per
step. -/
def demoEngine : Step → List Resource :=
  fun s => [{ kind := "ConfigMap", resNamespace := "", name := s.name ++ "-cm", labels := [] }]

/-- A concrete resource contributed by a layer customization. -/
def demoLayerResource : Resource :=
  { kind := "Secret", resNamespace := "", name := "mtls-cert", labels := [] }

/-- C7 witness: the orchestration of the two scenario-B steps plus one
layer resource, with the order equation instantiated and the labeling
conjunct applied to the concrete pre-install output resource. -/
theorem orchestrateSteps_order_and_labels_witness :
    orchestrateSteps demoEngine [preInstallStep, coreStep] [demoLayerResource] =
      ([[labelWithStep "pre-install"
          { kind := "ConfigMap", resNamespace := "", name := "pre-install-cm", labels := [] }],
        [labelWithStep "core"
          { kind := "ConfigMap", resNamespace := "", name := "core-cm", labels := [] }]].flatten ++
        [demoLayerResource]) ∧
    (∃ s ∈ [preInstallStep, coreStep], ∃ r₀ ∈ demoEngine s,
      labelWithStep "pre-install"
          { kind := "ConfigMap", resNamespace := "", name := "pre-install-cm", labels := [] } =
        labelWithStep s.name r₀ ∧
      (stepLabelKey, s.name) ∈
        (labelWithStep "pre-install"
          { kind := "ConfigMap", resNamespace := "", name := "pre-install-cm", labels := [] }).labels) := by
  have h := orchestrateSteps_order_and_labels demoEngine [preInstallStep, coreStep]
    [demoLayerResource]
  refine ⟨h.1.trans (by rfl), ?_⟩
  exact h.2 _ (by decide)

/-- Modelled from the spec: the validation failure the Layer Composer
reports when a non-optional layer has no option selected by the caller. -/
inductive RenderError where
  | layerSelectionRequired (layerId : String)
  deriving DecidableEq

/-- Modelled from the spec: the caller's layer choices, a mapping from
layer id to the chosen option id; a layer absent from the list has no
selection. -/
def selectedOption (sels : List (String × String)) (layerId : String) : Option String :=
  (sels.find? (fun p => p.1 == layerId)).map (fun p => p.2)

/-- Modelled from the spec: the helm-value overrides one layer
contributes under a given selection — an optional layer with no selection
contributes nothing, a non-optional layer with no selection is the
`LayerSelectionRequired` validation error, and a selected option
contributes its declared value overrides. -/
def layerValues (l : Layer) (sel : Option String) : Except RenderError (List String) :=
  match sel with
  | none =>
      if l.optional then Except.ok []
      else Except.error (RenderError.layerSelectionRequired l.id)
  | some optId =>
      Except.ok ((l.options.filter (fun o => o.id == optId)).map (fun o => o.helmValues))

/-- Modelled from the spec: the Layer Composer's pass over the flavor's
declared layers in order, validating each selection and concatenating
the contributed value overrides. -/
def composeLayerValues (layers : List Layer) (sels : List (String × String)) :
    Except RenderError (List String) :=
  match layers with
  | [] => Except.ok []
  | l :: rest =>
      match layerValues l (selectedOption sels l.id) with
      | Except.error e => Except.error e
      | Except.ok vs =>
          match composeLayerValues rest sels with
          | Except.error e => Except.error e
          | Except.ok restVs => Except.ok (vs ++ restVs)

/-- Modelled from the spec: the resolve pipeline around one Templating
Engine invocation — layer-selection validation runs first, and only a
successful composition hands the composed values to the engine. -/
def renderWithLayers (engine : List String → List Resource) (layers : List Layer)
    (sels : List (String × String)) : Except RenderError (List Resource) :=
  match composeLayerValues layers sels with
  | Except.error e => Except.error e
  | Except.ok vs => Except.ok (engine vs)

/-- When some declared layer is non-optional and unselected, the
composition pass fails with a `LayerSelectionRequired` error. -/
theorem composeLayerValues_error_of_missing (layers : List Layer)
    (sels : List (String × String))
    (h : ∃ l ∈ layers, l.optional = false ∧ selectedOption sels l.id = none) :
    ∃ lid, composeLayerValues layers sels =
      Except.error (RenderError.layerSelectionRequired lid) := by
  induction layers with
  | nil => rcases h with ⟨l, hl, _⟩; cases hl
  | cons l rest ih =>
      rcases h with ⟨l', hl', hopt, hsel⟩
      cases hv : layerValues l (selectedOption sels l.id) with
      | error e =>
          cases e with
          | layerSelectionRequired lid =>
              exact ⟨lid, by simp [composeLayerValues, hv]⟩
      | ok vs =>
          rcases List.mem_cons.mp hl' with hEq | hMem
          · subst hEq
            rw [hsel] at hv
            simp [layerValues, hopt] at hv
          · rcases ih ⟨l', hMem, hopt, hsel⟩ with ⟨lid, hrest⟩
            exact ⟨lid, by simp [composeLayerValues, hv, hrest]⟩

/-- C8: selecting no option for a declared non-optional layer makes
resolution fail with a `LayerSelectionRequired` validation error, and the
result is independent of the Templating Engine — the engine is never
invoked on the failing path — while an optional layer with no selection
contributes nothing. -/
theorem renderWithLayers_selection_required
    (engineA engineB : List String → List Resource) (layers : List Layer)
    (sels : List (String × String))
    (h : ∃ l ∈ layers, l.optional = false ∧ selectedOption sels l.id = none) :
    (∃ lid, renderWithLayers engineA layers sels =
      Except.error (RenderError.layerSelectionRequired lid)) ∧
    renderWithLayers engineA layers sels = renderWithLayers engineB layers sels ∧
    (∀ l : Layer, l.optional = true → layerValues l none = Except.ok []) := by
  rcases composeLayerValues_error_of_missing layers sels h with ⟨lid, he⟩
  refine ⟨⟨lid, by simp [renderWithLayers, he]⟩, by simp [renderWithLayers, he], ?_⟩
  intro l hl
  simp [layerValues, hl]

/-- Concrete non-optional layer of the spec's §8 end-to-end scenario C. -/
def mtlsLayer : Layer :=
  { id := "mtls"
    displayName := "Mutual TLS Settings"
    description := ""
    optional := false
    options :=
      [{ id := "strict", displayName := "", description := "", helmValues := "mtls: strict" },
       { id := "permissive", displayName := "", description := "", helmValues := "mtls: permissive" }] }

/-- A stand-in Templating Engine that renders nothing. -/
def demoEngineA : List String → List Resource := fun _ => []

/-- A second, observably different stand-in Templating Engine. -/
def demoEngineB : List String → List Resource :=
  fun vs => [{ kind := "ConfigMap", resNamespace := "", name := Nat.repr vs.length, labels := [] }]

/-- C8 witness: requesting the non-optional `mtls` layer with no chosen
option yields `LayerSelectionRequired("mtls")`, and the outcome is the
same under two different engines, so no engine call was made. -/
theorem renderWithLayers_selection_required_witness :
    renderWithLayers demoEngineA [mtlsLayer] [] =
      Except.error (RenderError.layerSelectionRequired "mtls") ∧
    renderWithLayers demoEngineA [mtlsLayer] [] = renderWithLayers demoEngineB [mtlsLayer] [] := by
  have h := renderWithLayers_selection_required demoEngineA demoEngineB [mtlsLayer] []
    ⟨mtlsLayer, by simp, rfl, rfl⟩
  exact ⟨rfl, h.2.1⟩

end SMH
